import Mathlib

/-
Shallow embedding of the loongcollector Doris flusher plugin and the parts of
the go-doris-sdk stream-load client that it drives.

Sources embedded below:
- flusher_doris.go (plugin): parseGroupCommitMode, Validate, Init, Flush,
  updateStatistics, logProgress.
- pkg/load/util/http_client.go (SDK): GetHttpClient / buildHttpClient with a
  sync.Once guarded process-wide singleton.
- pkg/load/loader/resp_content.go (SDK): LoadStatus / LoadResponse.
- the body-replay dispatch (getBodyFunc), embedded from the verbatim code
  excerpt in the SDK docs (READER_CONCURRENCY analysis).
- the label manager and the retry orchestrator of the SDK are not part of this
  repository snapshot; they are modelled from the spec and marked as such.

Go machine integers are modelled as Nat with explicit reduction modulo 2 ^ 64
where the source uses uint64 arithmetic (the atomic statistics counters).
-/

/- ===================== Group-commit mode (SDK enum) ===================== -/

inductive GroupCommitMode
  | OFF
  | SYNC
  | ASYNC
deriving DecidableEq

/-
strings.ToLower, modelled character-wise (the mode keywords are ASCII).
Defined over the character list so that it evaluates inside the kernel.
-/
def strToLower (s : String) : String := String.mk (s.data.map Char.toLower)

/-
parseGroupCommitMode of flusher_doris.go.  The Go source is a switch over
strings.ToLower(mode); the default branch logs a warning and falls back to OFF.
The Bool component records whether that warning was logged.
-/
def parseGroupCommitMode (mode : String) : GroupCommitMode × Bool :=
  let m := strToLower mode
  if m = "sync" then (GroupCommitMode.SYNC, false)
  else if m = "async" then (GroupCommitMode.ASYNC, false)
  else if m = "off" then (GroupCommitMode.OFF, false)
  else if m = "" then (GroupCommitMode.OFF, false)
  else (GroupCommitMode.OFF, true)

/- ===================== Transport pool (http_client.go) ===================== -/

structure TlsConfig where
  insecureSkipVerify : Bool
deriving DecidableEq

structure HttpTransport where
  maxIdleConnsPerHost : Nat
  maxConnsPerHost : Nat
  maxIdleConns : Nat
  tlsClientConfig : TlsConfig
deriving DecidableEq

structure HttpClient where
  transport : HttpTransport
  timeoutSeconds : Nat
deriving DecidableEq

/-
buildHttpClient of http_client.go: the transport bounds and the fixed total
per-request timeout (120 * time.Second).
-/
def buildHttpClient : HttpClient :=
  { transport :=
      { maxIdleConnsPerHost := 30
        maxConnsPerHost := 50
        maxIdleConns := 50
        tlsClientConfig := { insecureSkipVerify := true } }
    timeoutSeconds := 120 }

/-
The package-level variables of http_client.go: the client pointer and the
sync.Once guard.  builds counts how many times buildHttpClient has run.
-/
structure OnceState where
  client : Option HttpClient
  builds : Nat
deriving DecidableEq

def onceStart : OnceState := { client := none, builds := 0 }

/-
GetHttpClient of http_client.go: once.Do runs buildHttpClient only when it has
not run before; every call returns the stored client.
-/
def GetHttpClient (s : OnceState) : HttpClient × OnceState :=
  match s.client with
  | some c => (c, s)
  | none => (buildHttpClient, { client := some buildHttpClient, builds := s.builds + 1 })

/- A sequence of n calls to GetHttpClient, threading the package state. -/
def runGetHttpClient : Nat → OnceState → List HttpClient × OnceState
  | 0, s => ([], s)
  | n + 1, s =>
    let p := GetHttpClient s
    let q := runGetHttpClient n p.2
    (p.1 :: q.1, q.2)

/- ===================== Statistics (flusher_doris.go) ===================== -/

/- Modulus of Go uint64 arithmetic. -/
def u64 : Nat := 2 ^ 64

/- atomic.AddUint64: wrapping addition on uint64. -/
def addU64 (a b : Nat) : Nat := (a + b) % u64

/-
The four uint64 counters of the statistics struct of flusher_doris.go
(startTime and the report bookkeeping fields do not affect the counters).
-/
structure Statistics where
  totalBytes : Nat
  totalRows : Nat
  lastBytes : Nat
  lastRows : Nat
deriving DecidableEq

/-
updateStatistics of flusher_doris.go: four atomic.AddUint64 calls, adding the
loaded bytes and rows to both the lifetime and the windowed counters.
-/
def updateStatistics (s : Statistics) (bytes rows : Nat) : Statistics :=
  { totalBytes := addU64 s.totalBytes bytes
    totalRows := addU64 s.totalRows rows
    lastBytes := addU64 s.lastBytes bytes
    lastRows := addU64 s.lastRows rows }

/-
The counter effect of logProgress of flusher_doris.go: the windowed counters
are swapped to zero (atomic.SwapUint64), the lifetime counters are only read.
-/
def logProgress (s : Statistics) : Statistics :=
  { totalBytes := s.totalBytes
    totalRows := s.totalRows
    lastBytes := 0
    lastRows := 0 }

/- The operations that touch the statistics counters. -/
inductive StatsOp
  | update (bytes rows : Nat)
  | report

def statsStep (s : Statistics) : StatsOp → Statistics
  | StatsOp.update b r => updateStatistics s b r
  | StatsOp.report => logProgress s

/- ============== Flusher configuration validation (flusher_doris.go) ============== -/

structure PlainTextConfig where
  username : String
  password : String
  database : String
deriving DecidableEq

structure Authentication where
  plainText : Option PlainTextConfig
deriving DecidableEq

/-
The configuration fields of the FlusherDoris struct that the validation and
initialization paths read.  A Go nil slice and an empty slice both have length
zero, so Addresses is a plain list.
-/
structure FlusherDoris where
  addresses : List String
  database : String
  authentication : Authentication
  table : String
deriving DecidableEq

/-
Validate of flusher_doris.go: error when Addresses is nil/empty, then error
when Table is the empty string, otherwise nil.
-/
def FlusherDoris.validate (f : FlusherDoris) : Except String Unit :=
  if f.addresses.length = 0 then Except.error "doris addrs is nil"
  else if f.table = "" then Except.error "doris table is nil"
  else Except.ok ()

/--
Modelled from the spec and the unit tests: Authentication.GetUsernamePassword
is not part of this repository snapshot (only its tests are).  Per the tests it
errors when the PlainText config is nil, when the username is empty, or when
the password is empty, and otherwise returns the credential pair.
-/
def Authentication.getUsernamePassword (a : Authentication) :
    Except String (String × String) :=
  match a.plainText with
  | none => Except.error "plaintext authentication config is nil"
  | some p =>
    if p.username = "" then Except.error "username is empty"
    else if p.password = "" then Except.error "password is empty"
    else Except.ok (p.username, p.password)

/-
The error-relevant prefix of Init of flusher_doris.go: Validate runs first;
initDorisClient then asks for the credentials before building the SDK config
and creating any client.  The converter construction between the two never
fails for the fixed protocol/encoding defaults and is elided.
-/
def FlusherDoris.initCheck (f : FlusherDoris) : Except String Unit :=
  match f.validate with
  | Except.error e => Except.error e
  | Except.ok _ =>
    match f.authentication.getUsernamePassword with
    | Except.error e => Except.error ("failed to get authentication credentials: " ++ e)
    | Except.ok _ => Except.ok ()

/- ===================== Load responses (resp_content.go) ===================== -/

inductive LoadStatus
  | FAILURE
  | SUCCESS
deriving DecidableEq

/- The response fields that Flush of flusher_doris.go reads. -/
structure LoadResponse where
  status : LoadStatus
  numberLoadedRows : Nat
  loadBytes : Nat
  errorMessage : String
deriving DecidableEq

/- The outcome of one dorisClient.Load call as seen by Flush. -/
inductive LoadResult
  | transportError (e : String)
  | response (r : LoadResponse)
deriving DecidableEq

/- ===================== Flush (flusher_doris.go) ===================== -/

/-
One log group as Flush sees it: the result of converter.ToByteStream (a list
of serialized log lines, each a byte list, or an error), and the outcome the
SDK Load call would produce for this group if it is sent.
-/
structure LogGroup where
  serialized : Except String (List (List Nat))
  loadResult : LoadResult

/-
The buffer built by Flush: every serialized log followed by one newline byte.
-/
def buildBuffer (logs : List (List Nat)) : List Nat :=
  logs.foldl (fun b l => b ++ l ++ [10]) []

/-
The loop body of Flush over the group list.  The result is
(error message if Flush returned early, final statistics, number of Load
calls issued).  A conversion error or an empty buffer skips the group; a
transport error or a non-SUCCESS response returns immediately; a SUCCESS
response updates the statistics and continues.
-/
def flushGo : List LogGroup → Statistics → Option String × Statistics × Nat
  | [], s => (none, s, 0)
  | g :: rest, s =>
    match g.serialized with
    | Except.error _ => flushGo rest s
    | Except.ok logs =>
      if (buildBuffer logs).length = 0 then flushGo rest s
      else
        match g.loadResult with
        | LoadResult.transportError e =>
          (some ("failed to load data to doris: " ++ e), s, 1)
        | LoadResult.response r =>
          if r.status = LoadStatus.SUCCESS then
            let p := flushGo rest (updateStatistics s r.loadBytes r.numberLoadedRows)
            (p.1, p.2.1, p.2.2 + 1)
          else
            (some ("doris load failed: " ++ r.errorMessage), s, 1)

/-
Flush of flusher_doris.go: the nil-client guard, then the loop over the log
group list.  clientReady models dorisClient != nil.
-/
def flush (clientReady : Bool) (groups : List LogGroup) (s : Statistics) :
    Option String × Statistics × Nat :=
  if clientReady then flushGo groups s
  else (some "doris client not initialized", s, 0)

/-
Spec-side classification of one group, used to state the Flush properties:
none when the group completes (skipped or SUCCESS), some message when the
group makes Flush return early.
-/
def groupError (g : LogGroup) : Option String :=
  match g.serialized with
  | Except.error _ => none
  | Except.ok logs =>
    if (buildBuffer logs).length = 0 then none
    else
      match g.loadResult with
      | LoadResult.transportError e => some ("failed to load data to doris: " ++ e)
      | LoadResult.response r =>
        if r.status = LoadStatus.SUCCESS then none
        else some ("doris load failed: " ++ r.errorMessage)

/- A group that is skipped without any Load call. -/
def groupSkipped (g : LogGroup) : Bool :=
  match g.serialized with
  | Except.error _ => true
  | Except.ok logs => (buildBuffer logs).length = 0

/- ===================== Body replay strategy (SDK getBodyFunc) ===================== -/

/-
An io.Reader that also supports io.Seeker: a byte content plus a read cursor.
Reading drains everything from the cursor to the end.
-/
structure SeekableReader where
  content : List Nat
  pos : Nat
deriving DecidableEq

def SeekableReader.readAll (r : SeekableReader) : List Nat × SeekableReader :=
  (r.content.drop r.pos, { content := r.content, pos := r.content.length })

/- Seek(0, io.SeekStart). -/
def SeekableReader.seekStart (r : SeekableReader) : SeekableReader :=
  { content := r.content, pos := 0 }

/-
An io.Reader without Seek support.  originReads counts how many times the
underlying origin has been drained.
-/
structure PlainReader where
  content : List Nat
  pos : Nat
  originReads : Nat
deriving DecidableEq

/- buf.ReadFrom(reader): drain the origin to EOF, once. -/
def PlainReader.drain (r : PlainReader) : List Nat × PlainReader :=
  (r.content.drop r.pos,
   { content := r.content, pos := r.content.length, originReads := r.originReads + 1 })

/- The capability-tested dispatch of getBodyFunc. -/
inductive BodySource
  | seekable (r : SeekableReader)
  | plain (r : PlainReader)

/-
One attempt body under the Seeker strategy of getBodyFunc: reposition the
source to offset zero and hand out the same underlying source.
-/
def seekerAttempt (r : SeekableReader) : List Nat × SeekableReader :=
  (r.seekStart).readAll

/- n attempts under the Seeker strategy, threading the shared source. -/
def runSeekerAttempts : Nat → SeekableReader → List (List Nat) × SeekableReader
  | 0, r => ([], r)
  | n + 1, r =>
    let p := seekerAttempt r
    let q := runSeekerAttempts n p.2
    (p.1 :: q.1, q.2)

/-
n attempts under the buffering strategy of getBodyFunc: every attempt reads a
fresh bytes.NewReader over the owned buffer, from offset zero.
-/
def runBufferedAttempts (buf : List Nat) : Nat → List (List Nat)
  | 0 => []
  | n + 1 =>
    let p := SeekableReader.readAll { content := buf, pos := 0 }
    p.1 :: runBufferedAttempts buf n

/-
The full body-replay behaviour of one submission with n attempts, embedded
from the getBodyFunc excerpt in the SDK docs: a Seeker source is rewound and
reused per attempt (the origin is only ever read through the seeks, never
buffered); a non-Seeker source is drained into a buffer once, before the
first attempt, and every attempt reads the buffer.  The result is the list
of bodies supplied to the n attempts, paired with how many origin drains the
submission performed on a non-Seeker source.
-/
def runSubmissionBodies (src : BodySource) (n : Nat) : List (List Nat) × Nat :=
  match src with
  | BodySource.seekable r => ((runSeekerAttempts n r).1, 0)
  | BodySource.plain r =>
    let p := r.drain
    (runBufferedAttempts p.1 n, p.2.originReads - r.originReads)

/- The bytes a single successful read of the source would produce. -/
def sourceBytes : BodySource → List Nat
  | BodySource.seekable r => r.content
  | BodySource.plain r => r.content.drop r.pos

/- ===================== Label manager (SDK, modelled) ===================== -/

/--
Modelled from the spec: the default label prefix constant of the SDK label
manager (the SDK implementation is not part of this repository snapshot; the
spec only states that the prefix defaults to a fixed constant).
-/
def defaultLabelPfx : String := "doris_load"

/- Whether the one-time ignored-label warning has been recorded. -/
structure LabelState where
  warned : Bool
deriving DecidableEq

/--
Modelled from the spec: labelFor(config, groupCommitMode) of the SDK label
manager, whose implementation is not part of this repository snapshot.  If
group-commit mode is not off it returns no label and records a one-time
warning that any user-supplied label/prefix is ignored; otherwise it returns
the configured label verbatim, or synthesizes prefix, millisecond timestamp
and random suffix joined by underscores.  The Bool reports whether the
warning was recorded by this call.
-/
def labelFor (gc : GroupCommitMode) (label labelPfx : String) (nowMs rnd : Nat)
    (st : LabelState) : Option String × Bool × LabelState :=
  match gc with
  | GroupCommitMode.OFF =>
    if label ≠ "" then (some label, false, st)
    else
      let pfx := if labelPfx = "" then defaultLabelPfx else labelPfx
      (some (pfx ++ "_" ++ toString nowMs ++ "_" ++ toString rnd), false, st)
  | _ => (none, !st.warned, { warned := true })

/--
Modelled from the spec: the request builder attaches the label header only if
a label is present.
-/
def requestLabelHeader (lbl : Option String) : List (String × String) :=
  match lbl with
  | some l => [("label", l)]
  | none => []

/-
A sequence of submissions on one client: each submission computes its label
once via labelFor.  Returns the labels carried by the outgoing requests, the
number of warnings recorded, and the final warning state.
-/
def runLabelSubmissions (gc : GroupCommitMode) (label labelPfx : String) :
    List (Nat × Nat) → LabelState → List (Option String) × Nat × LabelState
  | [], st => ([], 0, st)
  | (t, r) :: rest, st =>
    let p := labelFor gc label labelPfx t r st
    let q := runLabelSubmissions gc label labelPfx rest p.2.2
    (p.1 :: q.1, (if p.2.1 then 1 else 0) + q.2.1, q.2.2)

/- ===================== Retry orchestrator (SDK, modelled) ===================== -/

/- The Retry policy struct of the SDK config. -/
structure Retry where
  maxRetryTimes : Nat
  baseIntervalMs : Nat
  maxTotalTimeMs : Nat
deriving DecidableEq

/- What one submission did: attempts issued, backoff slept, wall clock spent. -/
structure LoadTrace where
  attempts : Nat
  totalSleepMs : Nat
  elapsedMs : Nat
  succeeded : Bool
deriving DecidableEq

/--
Modelled from the spec: the retry orchestrator loop of the SDK Load, whose
implementation is not part of this repository snapshot.  succeeds k tells
whether attempt k succeeds, durMs k is the in-flight duration of attempt k.
fuel is the number of retries still allowed (attempts used below the max),
k the index of the attempt about to run, elapsed the wall clock so far,
sleepAcc the backoff slept so far.  On failure within both budgets the loop
sleeps min(baseInterval * 2 ^ (k - 1), remaining budget) and retries.
-/
def loadLoop (r : Retry) (succeeds : Nat → Bool) (durMs : Nat → Nat) :
    Nat → Nat → Nat → Nat → LoadTrace
  | 0, k, elapsed, sleepAcc =>
    { attempts := k
      totalSleepMs := sleepAcc
      elapsedMs := elapsed + durMs k
      succeeded := succeeds k }
  | fuel + 1, k, elapsed, sleepAcc =>
    let e2 := elapsed + durMs k
    if succeeds k then
      { attempts := k, totalSleepMs := sleepAcc, elapsedMs := e2, succeeded := true }
    else if e2 < r.maxTotalTimeMs then
      let s := min (r.baseIntervalMs * 2 ^ (k - 1)) (r.maxTotalTimeMs - e2)
      loadLoop r succeeds durMs fuel (k + 1) (e2 + s) (sleepAcc + s)
    else
      { attempts := k, totalSleepMs := sleepAcc, elapsedMs := e2, succeeded := false }

/--
Modelled from the spec: one submission of the SDK Load.  A nil/absent retry
policy performs exactly one attempt with no backoff; otherwise the loop runs
with maxRetryTimes retries allowed after the first attempt.
-/
def load (policy : Option Retry) (succeeds : Nat → Bool) (durMs : Nat → Nat) : LoadTrace :=
  match policy with
  | none =>
    { attempts := 1, totalSleepMs := 0, elapsedMs := durMs 1, succeeded := succeeds 1 }
  | some r => loadLoop r succeeds durMs r.maxRetryTimes 1 0 0

/- ===================== Theorems ===================== -/

/--
C9: parseGroupCommitMode is total and case-insensitive: for every input string
it returns SYNC when the lowercased input is "sync", ASYNC when it is "async",
OFF when it is "off" or the empty string, and OFF with a logged warning for
every other value; it never fails.
-/
theorem c9_parseGroupCommitMode_total (mode : String) :
    (strToLower mode = "sync" → parseGroupCommitMode mode = (GroupCommitMode.SYNC, false)) ∧
    (strToLower mode = "async" → parseGroupCommitMode mode = (GroupCommitMode.ASYNC, false)) ∧
    (strToLower mode = "off" → parseGroupCommitMode mode = (GroupCommitMode.OFF, false)) ∧
    (strToLower mode = "" → parseGroupCommitMode mode = (GroupCommitMode.OFF, false)) ∧
    (strToLower mode ≠ "sync" → strToLower mode ≠ "async" → strToLower mode ≠ "off" →
      strToLower mode ≠ "" → parseGroupCommitMode mode = (GroupCommitMode.OFF, true)) := by
  refine ⟨fun h => ?_, fun h => ?_, fun h => ?_, fun h => ?_, fun h1 h2 h3 h4 => ?_⟩
  · simp [parseGroupCommitMode, h]
  · simp [parseGroupCommitMode, h]
  · simp [parseGroupCommitMode, h]
  · simp [parseGroupCommitMode, h]
  · simp [parseGroupCommitMode, h1, h2, h3, h4]

theorem c9_parseGroupCommitMode_total_witness :
    parseGroupCommitMode "Sync" = (GroupCommitMode.SYNC, false) ∧
    parseGroupCommitMode "strange" = (GroupCommitMode.OFF, true) := by
  constructor
  · exact (c9_parseGroupCommitMode_total "Sync").1 (by decide)
  · exact (c9_parseGroupCommitMode_total "strange").2.2.2.2
      (by decide) (by decide) (by decide) (by decide)

/--
C8: buildHttpClient configures the shared transport with 30 idle connections
per host, 50 total connections per host, 50 global idle connections, and a
fixed 120-second total per-request timeout.
-/
theorem c8_buildHttpClient_config :
    buildHttpClient.transport.maxIdleConnsPerHost = 30 ∧
    buildHttpClient.transport.maxConnsPerHost = 50 ∧
    buildHttpClient.transport.maxIdleConns = 50 ∧
    buildHttpClient.timeoutSeconds = 120 :=
  ⟨rfl, rfl, rfl, rfl⟩

theorem runGetHttpClient_built (n b : Nat) :
    runGetHttpClient n { client := some buildHttpClient, builds := b } =
      (List.replicate n buildHttpClient, { client := some buildHttpClient, builds := b }) := by
  induction n with
  | zero => rfl
  | succ n ih => simp [runGetHttpClient, GetHttpClient, ih, List.replicate]

/--
C5: every call to GetHttpClient returns the same client value, and
buildHttpClient runs at most once per process, on the first call: after n
calls from the fresh package state, every returned client is buildHttpClient
and the number of builds is min n 1.
-/
theorem c5_GetHttpClient_singleton (n : Nat) :
    (∀ c ∈ (runGetHttpClient n onceStart).1, c = buildHttpClient) ∧
    (runGetHttpClient n onceStart).2.builds = min n 1 := by
  cases n with
  | zero => simp [runGetHttpClient, onceStart]
  | succ n =>
    have h : runGetHttpClient (n + 1) onceStart =
        (buildHttpClient :: List.replicate n buildHttpClient,
         { client := some buildHttpClient, builds := 1 }) := by
      simp [runGetHttpClient, GetHttpClient, onceStart, runGetHttpClient_built]
    rw [h]
    constructor
    · intro c hc
      rcases List.mem_cons.mp hc with h1 | h2
      · exact h1
      · exact List.eq_of_mem_replicate h2
    · simp

theorem c5_GetHttpClient_singleton_witness :
    buildHttpClient ∈ (runGetHttpClient 3 onceStart).1 ∧
    buildHttpClient = buildHttpClient ∧
    (runGetHttpClient 3 onceStart).2.builds = min 3 1 :=
  ⟨by decide, (c5_GetHttpClient_singleton 3).1 buildHttpClient (by decide),
   (c5_GetHttpClient_singleton 3).2⟩

/--
C7 counterexample: the lifetime counters are uint64 and wrap around, so they
are not monotonically non-decreasing across every operation: starting from the
zero statistics, updating with 2 ^ 64 - 1 loaded bytes and then with 1 loaded
byte makes totalBytes decrease.
-/
theorem c7_statistics_counterexample :
    (updateStatistics
        (updateStatistics
          { totalBytes := 0, totalRows := 0, lastBytes := 0, lastRows := 0 }
          (u64 - 1) 0)
        1 0).totalBytes <
      (updateStatistics
        { totalBytes := 0, totalRows := 0, lastBytes := 0, lastRows := 0 }
        (u64 - 1) 0).totalBytes := by
  decide

/--
C7 amended: every successful load adds the loaded bytes and rows, modulo
2 ^ 64, to both the lifetime counters and the windowed counters; the periodic
report resets only the windowed counters to zero and leaves the lifetime
counters unchanged; the lifetime counters are non-decreasing across every
report, and across every update whose uint64 addition does not wrap.
-/
theorem c7_statistics_amended (s : Statistics) (b r : Nat) :
    (updateStatistics s b r).totalBytes = (s.totalBytes + b) % u64 ∧
    (updateStatistics s b r).totalRows = (s.totalRows + r) % u64 ∧
    (updateStatistics s b r).lastBytes = (s.lastBytes + b) % u64 ∧
    (updateStatistics s b r).lastRows = (s.lastRows + r) % u64 ∧
    (logProgress s).totalBytes = s.totalBytes ∧
    (logProgress s).totalRows = s.totalRows ∧
    (logProgress s).lastBytes = 0 ∧
    (logProgress s).lastRows = 0 ∧
    (s.totalBytes + b < u64 → s.totalBytes ≤ (updateStatistics s b r).totalBytes) ∧
    (s.totalRows + r < u64 → s.totalRows ≤ (updateStatistics s b r).totalRows) := by
  refine ⟨rfl, rfl, rfl, rfl, rfl, rfl, rfl, rfl, fun h => ?_, fun h => ?_⟩
  · show s.totalBytes ≤ (s.totalBytes + b) % u64
    rw [Nat.mod_eq_of_lt h]
    exact Nat.le_add_right _ _
  · show s.totalRows ≤ (s.totalRows + r) % u64
    rw [Nat.mod_eq_of_lt h]
    exact Nat.le_add_right _ _

theorem c7_statistics_amended_witness :
    (1 : Nat) + 5 < u64 ∧
    ({ totalBytes := 1, totalRows := 2, lastBytes := 3, lastRows := 4 } : Statistics).totalBytes ≤
      (updateStatistics
        { totalBytes := 1, totalRows := 2, lastBytes := 3, lastRows := 4 } 5 6).totalBytes :=
  ⟨by decide,
   (c7_statistics_amended
      { totalBytes := 1, totalRows := 2, lastBytes := 3, lastRows := 4 } 5 6).2.2.2.2.2.2.2.2.1
     (by decide)⟩

/--
C6: FlusherDoris.Validate returns an error if and only if Addresses is
nil/empty or Table is the empty string, and the Init path additionally errors
before creating any client when the plaintext credentials are missing (nil
PlainText config, empty username or empty password).
-/
theorem c6_validate_fails_fast (f : FlusherDoris) :
    ((∃ e, f.validate = Except.error e) ↔ (f.addresses.length = 0 ∨ f.table = "")) ∧
    (∀ p, f.authentication.plainText = some p → (p.username = "" ∨ p.password = "") →
      ∃ e, f.initCheck = Except.error e) ∧
    (f.authentication.plainText = none → ∃ e, f.initCheck = Except.error e) := by
  refine ⟨⟨fun he => ?_, fun h => ?_⟩, fun p hp hup => ?_, fun hn => ?_⟩
  · by_cases h1 : f.addresses.length = 0
    · exact Or.inl h1
    · by_cases h2 : f.table = ""
      · exact Or.inr h2
      · rcases he with ⟨e, he⟩
        simp [FlusherDoris.validate, h1, h2] at he
  · by_cases h1 : f.addresses.length = 0
    · exact ⟨"doris addrs is nil", by simp [FlusherDoris.validate, h1]⟩
    · rcases h with h | h2
      · exact absurd h h1
      · exact ⟨"doris table is nil", by simp [FlusherDoris.validate, h1, h2]⟩
  · rcases hv : f.validate with e | u
    · exact ⟨e, by simp [FlusherDoris.initCheck, hv]⟩
    · by_cases hu : p.username = ""
      · exact ⟨"failed to get authentication credentials: " ++ "username is empty",
          by simp [FlusherDoris.initCheck, hv, Authentication.getUsernamePassword, hp, hu]⟩
      · rcases hup with h | h
        · exact absurd h hu
        · exact ⟨"failed to get authentication credentials: " ++ "password is empty",
            by simp [FlusherDoris.initCheck, hv, Authentication.getUsernamePassword, hp, hu, h]⟩
  · rcases hv : f.validate with e | u
    · exact ⟨e, by simp [FlusherDoris.initCheck, hv]⟩
    · exact ⟨"failed to get authentication credentials: " ++ "plaintext authentication config is nil",
        by simp [FlusherDoris.initCheck, hv, Authentication.getUsernamePassword, hn]⟩

theorem c6_validate_fails_fast_witness :
    (∃ e, FlusherDoris.validate
      { addresses := [], database := "",
        authentication := { plainText := none }, table := "t" } = Except.error e) ∧
    (∃ e, FlusherDoris.initCheck
      { addresses := ["127.0.0.1:8030"], database := "db",
        authentication := { plainText := some { username := "", password := "pw", database := "" } },
        table := "t" } = Except.error e) :=
  ⟨(c6_validate_fails_fast
      { addresses := [], database := "",
        authentication := { plainText := none }, table := "t" }).1.mpr (Or.inl rfl),
   (c6_validate_fails_fast
      { addresses := ["127.0.0.1:8030"], database := "db",
        authentication := { plainText := some { username := "", password := "pw", database := "" } },
        table := "t" }).2.1
     { username := "", password := "pw", database := "" } rfl (Or.inl rfl)⟩

theorem flushGo_none_iff (groups : List LogGroup) : ∀ s : Statistics,
    (flushGo groups s).1 = none ↔ ∀ g ∈ groups, groupError g = none := by
  induction groups with
  | nil => intro s; simp [flushGo]
  | cons g rest ih =>
    intro s
    rcases hg : g.serialized with er | logs
    · simpa [flushGo, hg, groupError, List.forall_mem_cons] using ih s
    · by_cases hb : buildBuffer logs = []
      · have hb2 : (buildBuffer logs).length = 0 := by simp [hb]
        simpa [flushGo, hg, hb2, groupError, hb, List.forall_mem_cons] using ih s
      · have hb2 : ¬(buildBuffer logs).length = 0 := by simpa using hb
        rcases hl : g.loadResult with te | resp
        · simp [flushGo, hg, hb2, hl, groupError, hb, List.forall_mem_cons]
        · by_cases hs : resp.status = LoadStatus.SUCCESS
          · simpa [flushGo, hg, hb2, hl, hs, groupError, hb, List.forall_mem_cons]
              using ih (updateStatistics s resp.loadBytes resp.numberLoadedRows)
          · simp [flushGo, hg, hb2, hl, hs, groupError, hb, List.forall_mem_cons]

/--
C10: Flush returns immediately with an error when the client is uninitialized
(no Load is issued), a skipped group (conversion failure or empty buffer) is
passed over without a Load call, a failing group (transport error or
non-SUCCESS response) makes Flush return its error with no subsequent group
sent (exactly one Load call issued from that point), and Flush returns nil iff
every non-skipped group loads with SUCCESS.
-/
theorem c10_flush_error_handling (groups : List LogGroup) (s : Statistics) :
    (flush false groups s = (some "doris client not initialized", s, 0)) ∧
    (∀ g rest, groupSkipped g = true → flushGo (g :: rest) s = flushGo rest s) ∧
    (∀ g rest e, groupError g = some e → flushGo (g :: rest) s = (some e, s, 1)) ∧
    ((flush true groups s).1 = none ↔ ∀ g ∈ groups, groupError g = none) := by
  refine ⟨rfl, fun g rest hskip => ?_, fun g rest e he => ?_, ?_⟩
  · rcases hg : g.serialized with er | logs
    · simp [flushGo, hg]
    · have hb : (buildBuffer logs).length = 0 := by
        have := hskip
        simp only [groupSkipped, hg] at this
        simpa using this
      simp [flushGo, hg, hb]
  · rcases hg : g.serialized with er | logs
    · simp [groupError, hg] at he
    · by_cases hb : buildBuffer logs = []
      · simp [groupError, hg, hb] at he
      · have hb2 : ¬(buildBuffer logs).length = 0 := by simpa using hb
        rcases hl : g.loadResult with te | resp
        · have he2 : e = "failed to load data to doris: " ++ te := by
            have h3 : groupError g = some ("failed to load data to doris: " ++ te) := by
              simp [groupError, hg, hb, hl]
            rw [he] at h3
            exact Option.some_inj.mp h3
          subst he2
          simp [flushGo, hg, hb2, hl]
        · by_cases hs : resp.status = LoadStatus.SUCCESS
          · simp [groupError, hg, hb, hl, hs] at he
          · have he2 : e = "doris load failed: " ++ resp.errorMessage := by
              have h3 : groupError g = some ("doris load failed: " ++ resp.errorMessage) := by
                simp [groupError, hg, hb, hl, hs]
              rw [he] at h3
              exact Option.some_inj.mp h3
            subst he2
            simp [flushGo, hg, hb2, hl, hs]
  · simpa [flush] using flushGo_none_iff groups s

theorem c10_flush_error_handling_witness :
    flushGo
        [{ serialized := Except.ok [[65]],
           loadResult := LoadResult.transportError "connection refused" }]
        { totalBytes := 0, totalRows := 0, lastBytes := 0, lastRows := 0 } =
      (some ("failed to load data to doris: " ++ "connection refused"),
       { totalBytes := 0, totalRows := 0, lastBytes := 0, lastRows := 0 }, 1) :=
  (c10_flush_error_handling []
      { totalBytes := 0, totalRows := 0, lastBytes := 0, lastRows := 0 }).2.2.1
    { serialized := Except.ok [[65]],
      loadResult := LoadResult.transportError "connection refused" }
    [] ("failed to load data to doris: " ++ "connection refused") (by decide)

theorem runSeekerAttempts_eq (n : Nat) (r : SeekableReader) :
    (runSeekerAttempts n r).1 = List.replicate n r.content := by
  induction n generalizing r with
  | zero => rfl
  | succ n ih =>
    simp [runSeekerAttempts, seekerAttempt, SeekableReader.seekStart, SeekableReader.readAll,
      List.replicate, ih]

theorem runBufferedAttempts_eq (buf : List Nat) (n : Nat) :
    runBufferedAttempts buf n = List.replicate n buf := by
  induction n with
  | zero => rfl
  | succ n ih => simp [runBufferedAttempts, SeekableReader.readAll, List.replicate, ih]

/--
C4: for every body source and attempt count, every attempt (including the
first) receives exactly the bytes of the source: a Seeker source is rewound to
offset zero before each attempt and reused, a non-Seeker source is drained
from its origin exactly once into a buffer and every attempt reads a fresh
cursor over it.  Hence the bytes of attempt k are identical to attempt 1 for
all k.
-/
theorem c4_body_replay (src : BodySource) (n : Nat) :
    (runSubmissionBodies src n).1 = List.replicate n (sourceBytes src) ∧
    (∀ bs ∈ (runSubmissionBodies src n).1, bs = sourceBytes src) ∧
    (∀ r, src = BodySource.plain r → (runSubmissionBodies src n).2 = 1) ∧
    (∀ r, src = BodySource.seekable r → (runSubmissionBodies src n).2 = 0) := by
  have hmain : (runSubmissionBodies src n).1 = List.replicate n (sourceBytes src) := by
    cases src with
    | seekable r => simpa [runSubmissionBodies, sourceBytes] using runSeekerAttempts_eq n r
    | plain r =>
      simpa [runSubmissionBodies, sourceBytes, PlainReader.drain]
        using runBufferedAttempts_eq (r.content.drop r.pos) n
  refine ⟨hmain, fun bs hbs => ?_, fun r hr => ?_, fun r hr => ?_⟩
  · rw [hmain] at hbs
    exact List.eq_of_mem_replicate hbs
  · subst hr
    simp [runSubmissionBodies, PlainReader.drain]
  · subst hr
    simp [runSubmissionBodies]

theorem c4_body_replay_witness :
    (runSubmissionBodies (BodySource.plain { content := [1, 2, 3], pos := 1, originReads := 0 }) 2).2
      = 1 ∧
    (runSubmissionBodies (BodySource.plain { content := [1, 2, 3], pos := 1, originReads := 0 }) 2).1
      = List.replicate 2 [2, 3] :=
  ⟨(c4_body_replay (BodySource.plain { content := [1, 2, 3], pos := 1, originReads := 0 }) 2).2.2.1
     { content := [1, 2, 3], pos := 1, originReads := 0 } rfl,
   (c4_body_replay (BodySource.plain { content := [1, 2, 3], pos := 1, originReads := 0 }) 2).1⟩

theorem runLabel_after_warned (gc : GroupCommitMode) (hgc : gc ≠ GroupCommitMode.OFF)
    (label labelPfx : String) (subs : List (Nat × Nat)) :
    runLabelSubmissions gc label labelPfx subs { warned := true } =
      (List.replicate subs.length none, 0, { warned := true }) := by
  induction subs with
  | nil => rfl
  | cons p rest ih =>
    cases gc with
    | OFF => exact absurd rfl hgc
    | SYNC => simp [runLabelSubmissions, labelFor, List.replicate, ih]
    | ASYNC => simp [runLabelSubmissions, labelFor, List.replicate, ih]

/--
C1: for every submission sequence under group-commit mode sync or async, no
outgoing request carries a label header, regardless of the configured label or
label prefix, and the ignored-label warning is recorded exactly once (for the
first submission).
-/
theorem c1_label_suppressed (gc : GroupCommitMode) (hgc : gc ≠ GroupCommitMode.OFF)
    (label labelPfx : String) (subs : List (Nat × Nat)) :
    (runLabelSubmissions gc label labelPfx subs { warned := false }).1 =
      List.replicate subs.length none ∧
    (∀ lbl ∈ (runLabelSubmissions gc label labelPfx subs { warned := false }).1,
      requestLabelHeader lbl = []) ∧
    (runLabelSubmissions gc label labelPfx subs { warned := false }).2.1 =
      min subs.length 1 := by
  have hmain : runLabelSubmissions gc label labelPfx subs { warned := false } =
      (List.replicate subs.length none, min subs.length 1, { warned := subs.length ≠ 0 }) := by
    cases subs with
    | nil => simp [runLabelSubmissions]
    | cons p rest =>
      cases gc with
      | OFF => exact absurd rfl hgc
      | SYNC =>
        simp [runLabelSubmissions, labelFor, List.replicate,
          runLabel_after_warned GroupCommitMode.SYNC hgc label labelPfx rest]
      | ASYNC =>
        simp [runLabelSubmissions, labelFor, List.replicate,
          runLabel_after_warned GroupCommitMode.ASYNC hgc label labelPfx rest]
  rw [hmain]
  refine ⟨rfl, fun lbl hl => ?_, rfl⟩
  have : lbl = none := List.eq_of_mem_replicate hl
  simp [this, requestLabelHeader]

theorem c1_label_suppressed_witness :
    (runLabelSubmissions GroupCommitMode.ASYNC "mylabel" "mypfx" [(5, 7), (8, 9)]
        { warned := false }).1 = List.replicate 2 none ∧
    (runLabelSubmissions GroupCommitMode.ASYNC "mylabel" "mypfx" [(5, 7), (8, 9)]
        { warned := false }).2.1 = min 2 1 :=
  ⟨(c1_label_suppressed GroupCommitMode.ASYNC (by decide) "mylabel" "mypfx" [(5, 7), (8, 9)]).1,
   (c1_label_suppressed GroupCommitMode.ASYNC (by decide) "mylabel" "mypfx" [(5, 7), (8, 9)]).2.2⟩

theorem loadLoop_sleep_le (r : Retry) (succeeds : Nat → Bool) (durMs : Nat → Nat) :
    ∀ fuel k elapsed sleepAcc, sleepAcc ≤ elapsed → sleepAcc ≤ r.maxTotalTimeMs →
      (loadLoop r succeeds durMs fuel k elapsed sleepAcc).totalSleepMs ≤ r.maxTotalTimeMs := by
  intro fuel
  induction fuel with
  | zero => intro k e sa h1 h2; simpa [loadLoop] using h2
  | succ fuel ih =>
    intro k e sa h1 h2
    by_cases hs : succeeds k
    · simpa [loadLoop, hs] using h2
    · by_cases hb : e + durMs k < r.maxTotalTimeMs
      · have hmin : min (r.baseIntervalMs * 2 ^ (k - 1)) (r.maxTotalTimeMs - (e + durMs k)) ≤
            r.maxTotalTimeMs - (e + durMs k) := Nat.min_le_right _ _
        have hrec := ih (k + 1)
          (e + durMs k + min (r.baseIntervalMs * 2 ^ (k - 1)) (r.maxTotalTimeMs - (e + durMs k)))
          (sa + min (r.baseIntervalMs * 2 ^ (k - 1)) (r.maxTotalTimeMs - (e + durMs k)))
          (by omega) (by omega)
        simpa [loadLoop, hs, hb] using hrec
      · simpa [loadLoop, hs, hb] using h2

/--
C2: for every retry policy, the backoff sleep inserted after failing attempt k
within budget is exactly min(baseInterval * 2 ^ (k - 1), remaining budget),
and the cumulative backoff sleep of one submission never exceeds the
configured max total time.
-/
theorem c2_backoff_within_budget (r : Retry) (succeeds : Nat → Bool) (durMs : Nat → Nat) :
    (load (some r) succeeds durMs).totalSleepMs ≤ r.maxTotalTimeMs ∧
    (∀ fuel k elapsed sleepAcc, succeeds k = false →
      elapsed + durMs k < r.maxTotalTimeMs →
      loadLoop r succeeds durMs (fuel + 1) k elapsed sleepAcc =
        loadLoop r succeeds durMs fuel (k + 1)
          (elapsed + durMs k +
            min (r.baseIntervalMs * 2 ^ (k - 1)) (r.maxTotalTimeMs - (elapsed + durMs k)))
          (sleepAcc +
            min (r.baseIntervalMs * 2 ^ (k - 1)) (r.maxTotalTimeMs - (elapsed + durMs k)))) := by
  constructor
  · simpa [load] using
      loadLoop_sleep_le r succeeds durMs r.maxRetryTimes 1 0 0 (Nat.le_refl 0) (Nat.zero_le _)
  · intro fuel k elapsed sleepAcc hfail hbudget
    simp [loadLoop, hfail, hbudget]

theorem c2_backoff_within_budget_witness :
    (load (some { maxRetryTimes := 10, baseIntervalMs := 1000, maxTotalTimeMs := 5000 })
        (fun _ => false) (fun _ => 100)).totalSleepMs ≤ 5000 ∧
    loadLoop { maxRetryTimes := 10, baseIntervalMs := 1000, maxTotalTimeMs := 5000 }
        (fun _ => false) (fun _ => 100) 3 1 0 0 =
      loadLoop { maxRetryTimes := 10, baseIntervalMs := 1000, maxTotalTimeMs := 5000 }
        (fun _ => false) (fun _ => 100) 2 2 (0 + 100 + min (1000 * 2 ^ (1 - 1)) (5000 - (0 + 100)))
        (0 + min (1000 * 2 ^ (1 - 1)) (5000 - (0 + 100))) :=
  ⟨(c2_backoff_within_budget
      { maxRetryTimes := 10, baseIntervalMs := 1000, maxTotalTimeMs := 5000 }
      (fun _ => false) (fun _ => 100)).1,
   (c2_backoff_within_budget
      { maxRetryTimes := 10, baseIntervalMs := 1000, maxTotalTimeMs := 5000 }
      (fun _ => false) (fun _ => 100)).2 2 1 0 0 rfl (by decide)⟩

theorem loadLoop_attempts_le (r : Retry) (succeeds : Nat → Bool) (durMs : Nat → Nat) :
    ∀ fuel k elapsed sleepAcc,
      (loadLoop r succeeds durMs fuel k elapsed sleepAcc).attempts ≤ k + fuel := by
  intro fuel
  induction fuel with
  | zero => intro k e sa; simp [loadLoop]
  | succ fuel ih =>
    intro k e sa
    by_cases hs : succeeds k
    · simp [loadLoop, hs]
    · by_cases hb : e + durMs k < r.maxTotalTimeMs
      · have hrec := ih (k + 1)
          (e + durMs k + min (r.baseIntervalMs * 2 ^ (k - 1)) (r.maxTotalTimeMs - (e + durMs k)))
          (sa + min (r.baseIntervalMs * 2 ^ (k - 1)) (r.maxTotalTimeMs - (e + durMs k)))
        have : (loadLoop r succeeds durMs (fuel + 1) k e sa).attempts ≤ k + 1 + fuel := by
          simpa [loadLoop, hs, hb] using hrec
        omega
      · simp [loadLoop, hs, hb]

/--
C3: for every configured retry policy with max retry count N, one submission
issues at most N + 1 attempts in total, and a nil/absent retry policy
performs exactly one attempt with no backoff sleep.
-/
theorem c3_attempt_budget (policy : Option Retry) (succeeds : Nat → Bool) (durMs : Nat → Nat) :
    (∀ r, policy = some r →
      (load policy succeeds durMs).attempts ≤ r.maxRetryTimes + 1) ∧
    (policy = none →
      (load policy succeeds durMs).attempts = 1 ∧
      (load policy succeeds durMs).totalSleepMs = 0) := by
  constructor
  · intro r hr
    subst hr
    have := loadLoop_attempts_le r succeeds durMs r.maxRetryTimes 1 0 0
    simpa [load, Nat.add_comm] using this
  · intro h
    subst h
    simp [load]

theorem c3_attempt_budget_witness :
    (load (some { maxRetryTimes := 3, baseIntervalMs := 1000, maxTotalTimeMs := 0 })
        (fun _ => false) (fun _ => 10)).attempts ≤ 3 + 1 ∧
    (load none (fun _ => false) (fun _ => 10)).attempts = 1 :=
  ⟨(c3_attempt_budget
      (some { maxRetryTimes := 3, baseIntervalMs := 1000, maxTotalTimeMs := 0 })
      (fun _ => false) (fun _ => 10)).1
     { maxRetryTimes := 3, baseIntervalMs := 1000, maxTotalTimeMs := 0 } rfl,
   ((c3_attempt_budget none (fun _ => false) (fun _ => 10)).2 rfl).1⟩
